import Mathlib

/-!
Verification of the command relay and deduplication engine of
`octoprint_thespaghettidetective/client_conn.py`.

The embedding below translates `ClientConn.on_message_to_plugin`,
`ClientConn.send_msg_to_client` and `DataChannelConn.send` into pure Lean
functions.  Python dictionaries are modelled as records whose fields carry
the result of `dict.get` (absent key gives `Val.none`), Python truthiness
is the `truthy` function, the `deque(maxlen=25)` dedup ledger is a `List`
with the `dequeAppend` insertion, and the side effects of a dispatch
(handler invocations, messages sent on each channel, the post-dispatch
status refresh) are collected in an explicit `DispatchResult` trace.
-/

/-- Python scalar values appearing in command envelopes: `None`, strings,
integers and booleans. -/
inductive Val where
  | none : Val
  | str : String → Val
  | int : Int → Val
  | bool : Bool → Val
deriving DecidableEq, Repr

/-- Python truthiness for the scalar values of `Val`: `None`, the empty
string, `0` and `False` are falsy. -/
def truthy : Val → Bool
  | Val.none => false
  | Val.str s => s ≠ ""
  | Val.int n => n ≠ 0
  | Val.bool b => b

/-- The append operation of `collections.deque(maxlen=cap)`: the new element
goes to the right end, and elements are dropped from the left end so that at
most `cap` remain.  `self.seen_refs` is such a deque with `cap = 25`. -/
def dequeAppend (cap : Nat) (xs : List Val) (x : Val) : List Val :=
  (xs ++ [x]).drop ((xs ++ [x]).length - cap)

/-- A capability group on the plugin (the object found by
`getattr(self.plugin, msg.get('target'))`): `funcs` is attribute lookup,
returning the operation when the attribute exists
(`getattr(target, msg['func'], None)`). -/
structure Target where
  funcs : String → Option (List Val → Val)

/-- The plugin as seen by `ClientConn`: `linked_printer_id` is the value of
the key `id` of `self.plugin.linked_printer` when that key is present, and
`targets` is attribute lookup on the plugin object. -/
structure Plugin where
  linked_printer_id : Option Val
  targets : String → Option Target

/-- An inbound command envelope `msg`.  Fields `printer_id`, `target` and
`ref` carry `msg.get(k)` with absent keys collapsed to `Val.none` (exactly
what `dict.get` returns); `func` is `none` when the key `func` is absent,
since `msg['func']` raises `KeyError` in that case; `args` is
`msg.get('args', [])`. -/
structure Msg where
  printer_id : Val
  target : Val
  func : Option String
  args : List Val
  ref : Val

/-- The Python exceptions that `on_message_to_plugin` can raise before
invoking a handler: the explicit `printer_id mismatch` exception, the
`AttributeError` of `getattr(self.plugin, name)` on an unknown attribute,
the `TypeError` of `getattr` on a non-string attribute name, and the
`KeyError` of `msg['func']` or `linked_printer['id']` on an absent key. -/
inductive PyErr where
  | mismatch : PyErr
  | attributeError : PyErr
  | typeError : PyErr
  | keyError : PyErr
deriving DecidableEq, Repr

/-- A reply sent on the reliable channel by
`self.plugin.send_ws_msg_to_server`, whose payload is the wrapper
`passthru: (ref, ret)`. -/
structure WsOut where
  ref : Val
  ret : Val
deriving DecidableEq, Repr

/-- The structured message handed to `ClientConn.send_msg_to_client`:
`ref`, `ret` and the low-latency marker `_webrtc`. -/
structure ClientMsg where
  ref : Val
  ret : Val
  webrtc : Bool
deriving DecidableEq, Repr

/-- The structured message that `send_msg_to_client` serializes, compresses
and hands to the data-channel Transport: the `ClientMsg` fields plus the
`printer_id` it adds. -/
structure DataChannelMsg where
  ref : Val
  ret : Val
  webrtc : Bool
  printer_id : Val
deriving DecidableEq, Repr

/-- The observable outcome of one call to `on_message_to_plugin`:
the dedup ledger afterwards, the exception raised (if any), the handler
invocations performed (target name, func name, args), the replies sent on
the reliable channel, the structured messages handed to the Transport, and
whether the post-dispatch status refresh (`post_update_to_server`) ran. -/
structure DispatchResult where
  seen : List Val
  err : Option PyErr
  invoked : List (String × String × List Val)
  wsSent : List WsOut
  dcSent : List DataChannelMsg
  postUpdate : Bool
deriving DecidableEq, Repr

/-- An early exit of `on_message_to_plugin`: the ledger is left as given,
optionally an exception is raised, and nothing else happens (no invocation,
no reply, no status refresh). -/
def dropWith (seen : List Val) (e : Option PyErr) : DispatchResult :=
  ⟨seen, e, [], [], [], false⟩

/-- `ClientConn.send_msg_to_client(data)`: returns early (sending nothing)
when `self.plugin.linked_printer.get('id')` is falsy; otherwise adds
`printer_id` to the message, which is then serialized, compressed and handed
to the Transport.  The result is the structured message handed over, or
`none` when the send is suppressed. -/
def send_msg_to_client (p : Plugin) (data : ClientMsg) : Option DataChannelMsg :=
  if truthy (p.linked_printer_id.getD Val.none) then
    some ⟨data.ref, data.ret, data.webrtc, (p.linked_printer_id.getD Val.none)⟩
  else
    Option.none

/-- The tail of `on_message_to_plugin` after the dedup gate: invoke the
resolved operation on `args`, reply on both channels when `ack_ref` is
truthy, then sleep and trigger the status refresh.  `seen` is the ledger
after the dedup gate ran. -/
def runHandler (p : Plugin) (seen : List Val) (msg : Msg)
    (tname fname : String) (f : List Val → Val) : DispatchResult :=
  let ret := f msg.args
  if truthy msg.ref then
    ⟨seen, Option.none, [(tname, fname, msg.args)],
      [⟨msg.ref, ret⟩],
      (send_msg_to_client p ⟨msg.ref, ret, true⟩).toList,
      true⟩
  else
    ⟨seen, Option.none, [(tname, fname, msg.args)], [], [], true⟩

/-- The dedup gate of `on_message_to_plugin`: when `ack_ref = msg.get('ref')`
is not `None`, a ref already in `self.seen_refs` causes a silent return with
the ledger unchanged, and otherwise the ref is appended to the bounded
deque before the handler runs. -/
def afterResolve (p : Plugin) (seen : List Val) (msg : Msg)
    (tname fname : String) (f : List Val → Val) : DispatchResult :=
  if msg.ref = Val.none then
    runHandler p seen msg tname fname f
  else if msg.ref ∈ seen then
    dropWith seen Option.none
  else
    runHandler p (dequeAppend 25 seen msg.ref) msg tname fname f

/-- The resolution step of `on_message_to_plugin`:
`target = getattr(self.plugin, msg.get('target'))` raises `TypeError` when
the envelope's `target` is not a string and `AttributeError` when the plugin
has no such attribute; `func = getattr(target, msg['func'], None)` raises
`KeyError` when the key `func` is absent and yields `None` (causing a silent
return) when the group lacks the operation. -/
def afterIdentity (p : Plugin) (seen : List Val) (msg : Msg) : DispatchResult :=
  match msg.target with
  | Val.str tname =>
    match p.targets tname with
    | Option.none => dropWith seen (some PyErr.attributeError)
    | some tgt =>
      match msg.func with
      | Option.none => dropWith seen (some PyErr.keyError)
      | some fname =>
        match tgt.funcs fname with
        | Option.none => dropWith seen Option.none
        | some f => afterResolve p seen msg tname fname f
  | _ => dropWith seen (some PyErr.typeError)

/-- `ClientConn.on_message_to_plugin(msg)`: the identity check
`if msg.get('printer_id'):` fires only on a truthy `printer_id`; a truthy
`printer_id` different from `linked_printer['id']` raises the
`printer_id mismatch` exception (and `linked_printer['id']` raises
`KeyError` when the linked printer has no id); otherwise dispatch proceeds
to resolution, dedup, invocation, reply and status refresh. -/
def on_message_to_plugin (p : Plugin) (seen : List Val) (msg : Msg) : DispatchResult :=
  if truthy msg.printer_id then
    match p.linked_printer_id with
    | Option.none => dropWith seen (some PyErr.keyError)
    | some lid =>
      if msg.printer_id ≠ lid then
        dropWith seen (some PyErr.mismatch)
      else
        afterIdentity p seen msg
  else
    afterIdentity p seen msg

/-- State of a `DataChannelConn`: the lazily created UDP socket handle (we
give handles numeric identities so that re-creation is observable) and a
counter supplying fresh handle identities. -/
structure DCState where
  sock : Option Nat
  nextHandle : Nat
deriving DecidableEq, Repr

/-- Outcome of the `self.sock.sendto(...)` call, classified by which
`except` clause of `DataChannelConn.send` catches the exception.  In
Python 3 `socket.error` is an alias of `OSError`, so every exception raised
by `sendto` matches the first clause `except socket.error`;
`excOSErrorOnly` (an `OSError` that is not a `socket.error`) is unreachable
there and the `except OSError` clause that clears `self.sock` is dead
code. -/
inductive SendtoResult where
  | ok : SendtoResult
  | excSocketError : SendtoResult
  | excOSErrorOnly : SendtoResult
deriving DecidableEq, Repr

/-- Environment of one `DataChannelConn.send` call: whether
`socket.socket(...)` succeeds when a socket must be created, and how
`sendto` behaves. -/
structure SendEnv where
  createOk : Bool
  sendtoResult : SendtoResult
deriving DecidableEq, Repr

/-- Trace of one `DataChannelConn.send` call: the `(handle, payload)` pairs
passed to `sendto`, whether a socket was created during the call, and
whether an error was logged. -/
structure SendTrace where
  sockOps : List (Nat × List Nat)
  created : Bool
  errorLogged : Bool
deriving DecidableEq, Repr

/-- `DataChannelConn.send(payload)`: payloads longer than
`MAX_PAYLOAD_SIZE` are rejected up front with only an error log; otherwise,
under the lock, a missing socket is created (a creation failure is only
logged), and `sendto` is attempted on the socket when one exists.  A
`sendto` failure caught by `except socket.error` is only logged; one caught
by `except OSError` is logged and clears `self.sock`. -/
def DataChannelConn.send (st : DCState) (maxPayloadSize : Nat)
    (payload : List Nat) (env : SendEnv) : DCState × SendTrace :=
  if payload.length > maxPayloadSize then
    (st, ⟨[], false, true⟩)
  else
    let stc : DCState × Bool × Bool :=
      match st.sock with
      | Option.none =>
        if env.createOk then
          (⟨some st.nextHandle, st.nextHandle + 1⟩, true, false)
        else
          (st, false, true)
      | some _ => (st, false, false)
    let st1 := stc.1
    let created := stc.2.1
    let createLog := stc.2.2
    match st1.sock with
    | Option.none => (st1, ⟨[], created, createLog⟩)
    | some h =>
      match env.sendtoResult with
      | SendtoResult.ok => (st1, ⟨[(h, payload)], created, createLog⟩)
      | SendtoResult.excSocketError => (st1, ⟨[(h, payload)], created, true⟩)
      | SendtoResult.excOSErrorOnly =>
        (⟨Option.none, st1.nextHandle⟩, ⟨[(h, payload)], created, true⟩)

/-! Concrete fixtures used by witnesses and counterexamples. -/

/-- A concrete capability group exposing one operation,
`set_temperature`, which returns the integer 1. -/
def printerTarget : Target :=
  ⟨fun fname => if fname = "set_temperature" then some (fun _ => Val.int 1) else Option.none⟩

/-- A concrete plugin linked as printer `p1`, exposing the `printer`
capability group. -/
def testPlugin : Plugin :=
  ⟨some (Val.str "p1"),
   fun tname => if tname = "printer" then some printerTarget else Option.none⟩

/-- A concrete plugin whose `linked_printer` dict has no `id` key. -/
def unlinkedPlugin : Plugin :=
  ⟨Option.none,
   fun tname => if tname = "printer" then some printerTarget else Option.none⟩

/-- A concrete plugin whose linked printer id is the empty string:
present in the dict, but falsy. -/
def emptyIdPlugin : Plugin :=
  ⟨some (Val.str ""),
   fun tname => if tname = "printer" then some printerTarget else Option.none⟩

/-- A well-formed envelope invoking `printer.set_temperature(200)` with a
truthy dedup ref. -/
def basicMsg : Msg :=
  ⟨Val.none, Val.str "printer", some "set_temperature", [Val.int 200], Val.str "abc123"⟩

/-- An envelope naming a target attribute the plugin does not have. -/
def unknownTargetMsg : Msg :=
  ⟨Val.none, Val.str "nonexistent", some "set_temperature", [], Val.none⟩

/-- An envelope naming an operation the `printer` group does not have. -/
def unknownFuncMsg : Msg :=
  ⟨Val.none, Val.str "printer", some "no_such_op", [], Val.str "r1"⟩

/-- An envelope carrying a present-but-falsy printer id (the empty string)
that differs from the linked printer's id. -/
def falsyPidMsg : Msg :=
  ⟨Val.str "", Val.str "printer", some "set_temperature", [Val.int 200], Val.none⟩

/-- An envelope carrying a truthy printer id that differs from the linked
printer's id p1. -/
def mismatchMsg : Msg :=
  ⟨Val.str "p2", Val.str "printer", some "set_temperature", [], Val.none⟩

/-- An envelope with no ref at all. -/
def noRefMsg : Msg :=
  ⟨Val.none, Val.str "printer", some "set_temperature", [Val.int 210], Val.none⟩

/-- An envelope whose ref is the empty string: present, not None, falsy. -/
def emptyRefMsg : Msg :=
  ⟨Val.none, Val.str "printer", some "set_temperature", [Val.int 220], Val.str ""⟩

/-- Twenty-six distinct refs, the integers 0 through 25. -/
def refs26 : List Val := (List.range 26).map (fun n => Val.int n)

/-- An envelope reusing the first-inserted ref, the integer 0. -/
def replayMsg : Msg :=
  ⟨Val.none, Val.str "printer", some "set_temperature", [], Val.int 0⟩

/-! Helper lemmas shared by the claim theorems. -/

/-- When the envelope's `printer_id` is falsy, or equals the linked
printer's id, `on_message_to_plugin` proceeds past the identity check. -/
lemma identity_pass (p : Plugin) (seen : List Val) (msg : Msg)
    (hid : truthy msg.printer_id = false ∨
      ∃ lid, p.linked_printer_id = some lid ∧ msg.printer_id = lid) :
    on_message_to_plugin p seen msg = afterIdentity p seen msg := by
  rcases hid with h | ⟨lid, hl, he⟩
  · simp [on_message_to_plugin, h]
  · by_cases ht : truthy msg.printer_id
    · simp [on_message_to_plugin, ht, hl, he]
    · simp [on_message_to_plugin, ht]

/-- When the envelope's `target` and `func` both resolve, `afterIdentity`
reduces to the dedup gate. -/
lemma resolve_eq (p : Plugin) (seen : List Val) (msg : Msg)
    (tname fname : String) (tgt : Target) (f : List Val → Val)
    (ht : msg.target = Val.str tname) (hT : p.targets tname = some tgt)
    (hf : msg.func = some fname) (hF : tgt.funcs fname = some f) :
    afterIdentity p seen msg = afterResolve p seen msg tname fname f := by
  simp [afterIdentity, ht, hT, hf, hF]

/-- An element just appended to the bounded deque is in it (the deque drops
from the opposite end), provided the capacity is at least one. -/
lemma mem_dequeAppend_self (cap : Nat) (hcap : 1 ≤ cap)
    (xs : List Val) (x : Val) : x ∈ dequeAppend cap xs x := by
  unfold dequeAppend
  have hd : (xs ++ [x]).length - cap ≤ xs.length := by
    simp only [List.length_append, List.length_singleton]
    omega
  rw [List.drop_append_of_le_length hd]
  simp

/-- The bounded deque never holds more than its capacity. -/
lemma length_dequeAppend_le (cap : Nat) (xs : List Val) (x : Val) :
    (dequeAppend cap xs x).length ≤ cap := by
  unfold dequeAppend
  simp only [List.length_drop, List.length_append, List.length_singleton]
  omega

/-- As long as the ledger stays under capacity, inserting refs is a plain
append. -/
lemma foldl_dequeAppend_short (cap : Nat) :
    ∀ (rs : List Val) (init : List Val), init.length + rs.length ≤ cap →
      List.foldl (dequeAppend cap) init rs = init ++ rs := by
  intro rs
  induction rs with
  | nil => intro init _; simp
  | cons x rs ih =>
    intro init h
    have hx : dequeAppend cap init x = init ++ [x] := by
      unfold dequeAppend
      have h0 : (init ++ [x]).length - cap = 0 := by
        simp only [List.length_append, List.length_singleton]
        simp at h
        omega
      rw [h0, List.drop_zero]
    rw [List.foldl_cons, hx, ih (init ++ [x]) (by simp; simp at h; omega)]
    simp

/-- Inserting 26 distinct-or-not refs into the empty 25-slot ledger in order
leaves exactly the last 25: the result is the tail of the insertion
sequence. -/
lemma foldl_dequeAppend_26 (rs : List Val) (h : rs.length = 26) :
    List.foldl (dequeAppend 25) [] rs = rs.tail := by
  have hne : rs ≠ [] := by intro e; rw [e] at h; simp at h
  have hsplit := List.dropLast_append_getLast hne
  have hlen : rs.dropLast.length = 25 := by
    rw [List.length_dropLast, h]
  calc List.foldl (dequeAppend 25) [] rs
      = List.foldl (dequeAppend 25) [] (rs.dropLast ++ [rs.getLast hne]) := by
        rw [hsplit]
    _ = dequeAppend 25 (List.foldl (dequeAppend 25) [] rs.dropLast) (rs.getLast hne) := by
        rw [List.foldl_append, List.foldl_cons, List.foldl_nil]
    _ = dequeAppend 25 rs.dropLast (rs.getLast hne) := by
        rw [foldl_dequeAppend_short 25 rs.dropLast [] (by simp [hlen])]
        simp
    _ = (rs.dropLast ++ [rs.getLast hne]).drop 1 := by
        unfold dequeAppend
        simp only [List.length_append, List.length_singleton, hlen]
    _ = rs.tail := by rw [hsplit, List.drop_one]

/-! Claim theorems. -/

/-- Claim C7: a Transport send whose payload length exceeds the maximum
payload size is a no-op apart from logging an error: it returns without
touching or creating the socket handle, without raising, and leaves the
handle state unchanged. -/
theorem C7_oversized_payload_noop (st : DCState) (maxPayloadSize : Nat)
    (payload : List Nat) (env : SendEnv)
    (h : payload.length > maxPayloadSize) :
    DataChannelConn.send st maxPayloadSize payload env = (st, ⟨[], false, true⟩) := by
  simp [DataChannelConn.send, h]

/-- Witness for claim C7 at a concrete oversized payload. -/
theorem C7_witness :
    ([1, 2, 3, 4] : List Nat).length > 3 ∧
      DataChannelConn.send ⟨some 7, 8⟩ 3 [1, 2, 3, 4] ⟨true, SendtoResult.ok⟩
        = (⟨some 7, 8⟩, ⟨[], false, true⟩) :=
  ⟨by decide,
   C7_oversized_payload_noop ⟨some 7, 8⟩ 3 [1, 2, 3, 4] ⟨true, SendtoResult.ok⟩ (by decide)⟩

/-- Claim C4, evaluated at the failing input: after a failed transmission
attempt the socket handle is NOT discarded.  In Python 3 `socket.error` is
an alias of `OSError`, so every exception raised by `sendto` is caught by
the first clause `except socket.error`, which only logs; the
`except OSError` clause that clears `self.sock` is unreachable.  Here a
send on handle 7 whose `sendto` fails leaves the state still holding
handle 7, so the next send reuses the known-bad handle instead of
re-creating one — contradicting the claim. -/
theorem C4_send_failure_keeps_handle :
    (DataChannelConn.send ⟨some 7, 8⟩ 1400 [1, 2, 3]
        ⟨true, SendtoResult.excSocketError⟩).1 = ⟨some 7, 8⟩ ∧
      (DataChannelConn.send ⟨some 7, 8⟩ 1400 [1, 2, 3]
        ⟨true, SendtoResult.excSocketError⟩).2 = ⟨[(7, [1, 2, 3])], false, true⟩ := by
  decide

/-- Claim C3 counterexample: an envelope whose target resolves to no
capability group is NOT silently dropped — `getattr(self.plugin, name)` has
no default, so an `AttributeError` is raised. -/
theorem C3_counterexample :
    (on_message_to_plugin testPlugin [] unknownTargetMsg).err
      = some PyErr.attributeError := by decide

/-- Claim C3 (amended): an envelope whose func name resolves to no
operation on the resolved capability group is silently dropped: no error is
raised, no reply is sent on either channel, nothing is invoked or recorded;
an envelope whose target name resolves to no capability group instead
raises an AttributeError. -/
theorem C3_unknown_func_silent_drop (p : Plugin) (seen : List Val) (msg : Msg)
    (tname fname : String) (tgt : Target)
    (hid : truthy msg.printer_id = false ∨
      ∃ lid, p.linked_printer_id = some lid ∧ msg.printer_id = lid)
    (ht : msg.target = Val.str tname) (hT : p.targets tname = some tgt)
    (hf : msg.func = some fname) (hF : tgt.funcs fname = Option.none) :
    on_message_to_plugin p seen msg = ⟨seen, Option.none, [], [], [], false⟩ ∧
      (∀ tname2, msg.target = Val.str tname2 → p.targets tname2 = Option.none →
        on_message_to_plugin p seen msg = ⟨seen, some PyErr.attributeError, [], [], [], false⟩) := by
  constructor
  · rw [identity_pass p seen msg hid]
    simp [afterIdentity, ht, hT, hf, hF, dropWith]
  · intro tname2 ht2 hT2
    rw [ht] at ht2
    have : tname = tname2 := by injection ht2
    rw [← this] at hT2
    rw [hT] at hT2
    exact absurd hT2 (by simp)

/-- Witness for the amended claim C3 at a concrete unknown operation. -/
theorem C3_witness :
    on_message_to_plugin testPlugin [] unknownFuncMsg
      = ⟨[], Option.none, [], [], [], false⟩ :=
  (C3_unknown_func_silent_drop testPlugin [] unknownFuncMsg "printer" "no_such_op"
    printerTarget (Or.inl rfl) rfl rfl rfl rfl).1

/-- Claim C5 counterexample: an envelope carrying printer_id equal to the
empty string — present, and different from the linked id p1 — is NOT
rejected: the truthiness guard `if msg.get('printer_id'):` skips the
comparison, no mismatch error is raised, and the handler is invoked. -/
theorem C5_counterexample :
    (on_message_to_plugin testPlugin [] falsyPidMsg).err = Option.none ∧
      (on_message_to_plugin testPlugin [] falsyPidMsg).invoked
        = [("printer", "set_temperature", [Val.int 200])] := by decide

/-- Claim C5 (amended): an envelope carrying a TRUTHY printer_id differing
from the linked printer's id aborts with a mismatch error before any
resolution, dedup recording, invocation or reply; an envelope whose
printer_id is absent, falsy, or equal to the linked id proceeds past the
identity check. -/
theorem C5_identity_check (p : Plugin) (seen : List Val) (msg : Msg) (lid : Val)
    (hl : p.linked_printer_id = some lid) :
    (truthy msg.printer_id = true → msg.printer_id ≠ lid →
      on_message_to_plugin p seen msg = ⟨seen, some PyErr.mismatch, [], [], [], false⟩) ∧
    ((truthy msg.printer_id = false ∨ msg.printer_id = lid) →
      on_message_to_plugin p seen msg = afterIdentity p seen msg) := by
  constructor
  · intro ht hne
    simp [on_message_to_plugin, ht, hl, hne, dropWith]
  · intro h
    exact identity_pass p seen msg (h.elim Or.inl (fun he => Or.inr ⟨lid, hl, he⟩))

/-- Witness for the amended claim C5 at a concrete mismatched truthy id. -/
theorem C5_witness :
    on_message_to_plugin testPlugin [] mismatchMsg
      = ⟨[], some PyErr.mismatch, [], [], [], false⟩ :=
  (C5_identity_check testPlugin [] mismatchMsg (Val.str "p1") rfl).1 (by decide) (by decide)

/-- Claim C9 counterexample: with a linked printer whose id key is present
but holds the empty string, the Transport-side send is suppressed even
though an id is present — the claim's second half (a present id is added to
the message) fails, because the gate `if not ...get('id'):` tests
truthiness, not presence. -/
theorem C9_counterexample :
    emptyIdPlugin.linked_printer_id = some (Val.str "") ∧
      send_msg_to_client emptyIdPlugin ⟨Val.str "r", Val.int 1, true⟩ = Option.none := by
  decide

/-- Claim C9 (amended): if the currently linked printer identity lacks an
id or its id is falsy, the Transport-side send is suppressed entirely
(send_msg_to_client hands nothing to the Transport); when a truthy id is
present, it is added to the message before encoding. -/
theorem C9_transport_gate (p : Plugin) (data : ClientMsg) :
    (truthy (p.linked_printer_id.getD Val.none) = false →
      send_msg_to_client p data = Option.none) ∧
    (∀ lid, p.linked_printer_id = some lid → truthy lid = true →
      send_msg_to_client p data = some ⟨data.ref, data.ret, data.webrtc, lid⟩) := by
  constructor
  · intro h
    simp [send_msg_to_client, h]
  · intro lid hl ht
    simp [send_msg_to_client, hl, ht]

/-- Witness for the amended claim C9: with linked id p1 the message handed
to the Transport carries the printer id. -/
theorem C9_witness :
    send_msg_to_client testPlugin ⟨Val.str "r", Val.int 2, true⟩
      = some ⟨Val.str "r", Val.int 2, true, Val.str "p1"⟩ :=
  (C9_transport_gate testPlugin ⟨Val.str "r", Val.int 2, true⟩).2 (Val.str "p1") rfl (by decide)

/-- Claim C8: for every envelope whose ref is absent or null, the dedup
ledger is never consulted and never modified — whatever the ledger holds,
the dispatch result is the same: the ledger is returned unchanged, the
handler is invoked exactly once unconditionally, and nothing is recorded. -/
theorem C8_no_ref_bypasses_ledger (p : Plugin) (seen : List Val) (msg : Msg)
    (tname fname : String) (tgt : Target) (f : List Val → Val)
    (hid : truthy msg.printer_id = false ∨
      ∃ lid, p.linked_printer_id = some lid ∧ msg.printer_id = lid)
    (ht : msg.target = Val.str tname) (hT : p.targets tname = some tgt)
    (hf : msg.func = some fname) (hF : tgt.funcs fname = some f)
    (href : msg.ref = Val.none) :
    on_message_to_plugin p seen msg
      = ⟨seen, Option.none, [(tname, fname, msg.args)], [], [], true⟩ := by
  rw [identity_pass p seen msg hid, resolve_eq p seen msg tname fname tgt f ht hT hf hF]
  simp [afterResolve, href, runHandler, truthy]

/-- Witness for claim C8: an envelope without a ref is processed even
though the ledger is nonempty, and the ledger is untouched. -/
theorem C8_witness :
    on_message_to_plugin testPlugin [Val.str "x"] noRefMsg
      = ⟨[Val.str "x"], Option.none,
          [("printer", "set_temperature", [Val.int 210])], [], [], true⟩ :=
  C8_no_ref_bypasses_ledger testPlugin [Val.str "x"] noRefMsg "printer" "set_temperature"
    printerTarget (fun _ => Val.int 1) (Or.inl rfl) rfl rfl rfl rfl rfl

/-- Claim C10: the dedup gate tests `ref is not None` while the reply gate
tests truthiness, so an envelope whose ref is present but falsy IS recorded
in the dedup ledger and the handler IS invoked, yet NO reply is sent on
either channel, while the post-invocation status refresh still runs. -/
theorem C10_falsy_ref_gates (p : Plugin) (seen : List Val) (msg : Msg)
    (tname fname : String) (tgt : Target) (f : List Val → Val)
    (hid : truthy msg.printer_id = false ∨
      ∃ lid, p.linked_printer_id = some lid ∧ msg.printer_id = lid)
    (ht : msg.target = Val.str tname) (hT : p.targets tname = some tgt)
    (hf : msg.func = some fname) (hF : tgt.funcs fname = some f)
    (hnn : msg.ref ≠ Val.none) (hfalsy : truthy msg.ref = false)
    (hnew : msg.ref ∉ seen) :
    on_message_to_plugin p seen msg
      = ⟨dequeAppend 25 seen msg.ref, Option.none,
          [(tname, fname, msg.args)], [], [], true⟩ := by
  rw [identity_pass p seen msg hid, resolve_eq p seen msg tname fname tgt f ht hT hf hF]
  simp [afterResolve, hnn, hnew, runHandler, hfalsy]

/-- Witness for claim C10 at a concrete empty-string ref: recorded in the
ledger, invoked, no replies, status refresh runs. -/
theorem C10_witness :
    on_message_to_plugin testPlugin [] emptyRefMsg
      = ⟨[Val.str ""], Option.none,
          [("printer", "set_temperature", [Val.int 220])], [], [], true⟩ :=
  C10_falsy_ref_gates testPlugin [] emptyRefMsg "printer" "set_temperature"
    printerTarget (fun _ => Val.int 1) (Or.inl rfl) rfl rfl rfl rfl
    (by decide) (by decide) (by decide)

/-- Claim C6 counterexample, two failure modes of the claim as stated.
First: an envelope whose ref is present (the empty string) and not a
duplicate has its handler invoked, yet NEITHER channel receives a reply —
the reply gate tests truthiness, not presence.  Second: an envelope with a
truthy ref dispatched while the linked printer has no id gets its reliable
reply, but the Transport receives nothing, so no Transport message carrying
printer_id exists. -/
theorem C6_counterexample :
    ((on_message_to_plugin testPlugin [] emptyRefMsg).invoked ≠ [] ∧
      (on_message_to_plugin testPlugin [] emptyRefMsg).wsSent = [] ∧
      (on_message_to_plugin testPlugin [] emptyRefMsg).dcSent = []) ∧
    ((on_message_to_plugin unlinkedPlugin [] basicMsg).invoked ≠ [] ∧
      (on_message_to_plugin unlinkedPlugin [] basicMsg).wsSent ≠ [] ∧
      (on_message_to_plugin unlinkedPlugin [] basicMsg).dcSent = []) := by decide

/-- Claim C6 (amended): for every non-duplicate envelope whose ref is
TRUTHY, dispatched while the linked printer id is truthy, after the handler
returns ret the dispatcher replies on both channels: the reliable channel
receives the passthru wrapper of (ref, ret), and the Transport receives the
message carrying ref, ret, the low-latency marker flag and the linked
printer_id. -/
theorem C6_reply_both_channels (p : Plugin) (seen : List Val) (msg : Msg)
    (tname fname : String) (tgt : Target) (f : List Val → Val) (lid : Val)
    (hid : truthy msg.printer_id = false ∨
      ∃ l, p.linked_printer_id = some l ∧ msg.printer_id = l)
    (ht : msg.target = Val.str tname) (hT : p.targets tname = some tgt)
    (hf : msg.func = some fname) (hF : tgt.funcs fname = some f)
    (href : truthy msg.ref = true) (hnew : msg.ref ∉ seen)
    (hl : p.linked_printer_id = some lid) (hlt : truthy lid = true) :
    on_message_to_plugin p seen msg
      = ⟨dequeAppend 25 seen msg.ref, Option.none,
          [(tname, fname, msg.args)],
          [⟨msg.ref, f msg.args⟩],
          [⟨msg.ref, f msg.args, true, lid⟩], true⟩ := by
  have hnn : msg.ref ≠ Val.none := by
    intro e
    rw [e] at href
    simp [truthy] at href
  rw [identity_pass p seen msg hid, resolve_eq p seen msg tname fname tgt f ht hT hf hF]
  simp [afterResolve, hnn, hnew, runHandler, href, send_msg_to_client, hl, hlt, Option.toList]

/-- Witness for the amended claim C6: the scenario envelope invoking
printer.set_temperature with ref abc123 produces the passthru reply and the
Transport message tagged with the marker and printer id p1. -/
theorem C6_witness :
    on_message_to_plugin testPlugin [] basicMsg
      = ⟨[Val.str "abc123"], Option.none,
          [("printer", "set_temperature", [Val.int 200])],
          [⟨Val.str "abc123", Val.int 1⟩],
          [⟨Val.str "abc123", Val.int 1, true, Val.str "p1"⟩], true⟩ :=
  C6_reply_both_channels testPlugin [] basicMsg "printer" "set_temperature" printerTarget
    (fun _ => Val.int 1) (Val.str "p1") (Or.inl rfl) rfl rfl rfl rfl
    (by decide) (by decide) rfl (by decide)

/-- Claim C1: for every envelope carrying a dedup ref (not previously
recorded), submitting the same envelope twice in immediate succession gives
exactly one invocation of the resolved operation and at most one reply
pair; the second arrival finds the ref already recorded in the ledger,
leaves the ledger unchanged, and is dropped without any reply, error or
status refresh. -/
theorem C1_dedup_idempotent (p : Plugin) (seen : List Val) (msg : Msg)
    (tname fname : String) (tgt : Target) (f : List Val → Val)
    (hid : truthy msg.printer_id = false ∨
      ∃ lid, p.linked_printer_id = some lid ∧ msg.printer_id = lid)
    (ht : msg.target = Val.str tname) (hT : p.targets tname = some tgt)
    (hf : msg.func = some fname) (hF : tgt.funcs fname = some f)
    (href : msg.ref ≠ Val.none) (hnew : msg.ref ∉ seen) :
    (on_message_to_plugin p seen msg).invoked = [(tname, fname, msg.args)] ∧
    msg.ref ∈ (on_message_to_plugin p seen msg).seen ∧
    on_message_to_plugin p (on_message_to_plugin p seen msg).seen msg
      = dropWith (on_message_to_plugin p seen msg).seen Option.none ∧
    (on_message_to_plugin p seen msg).wsSent.length ≤ 1 ∧
    (on_message_to_plugin p seen msg).dcSent.length ≤ 1 := by
  have h1 : on_message_to_plugin p seen msg
      = runHandler p (dequeAppend 25 seen msg.ref) msg tname fname f := by
    rw [identity_pass p seen msg hid, resolve_eq p seen msg tname fname tgt f ht hT hf hF]
    simp [afterResolve, href, hnew]
  have hseen : (on_message_to_plugin p seen msg).seen = dequeAppend 25 seen msg.ref := by
    rw [h1]
    unfold runHandler
    by_cases hr : truthy msg.ref <;> simp [hr]
  have hmem : msg.ref ∈ (on_message_to_plugin p seen msg).seen := by
    rw [hseen]
    exact mem_dequeAppend_self 25 (by norm_num) seen msg.ref
  have h2 : on_message_to_plugin p (on_message_to_plugin p seen msg).seen msg
      = dropWith (on_message_to_plugin p seen msg).seen Option.none := by
    rw [identity_pass p _ msg hid, resolve_eq p _ msg tname fname tgt f ht hT hf hF]
    simp [afterResolve, href, hmem]
  refine ⟨?_, hmem, h2, ?_, ?_⟩
  · rw [h1]
    unfold runHandler
    by_cases hr : truthy msg.ref <;> simp [hr]
  · rw [h1]
    unfold runHandler
    by_cases hr : truthy msg.ref <;> simp [hr]
  · rw [h1]
    unfold runHandler
    by_cases hr : truthy msg.ref <;> simp [hr]
    cases send_msg_to_client p ⟨msg.ref, f msg.args, true⟩ <;> simp

/-- Claim C1 witness: the scenario envelope submitted twice against the
empty ledger. -/
theorem C1_witness :
    (on_message_to_plugin testPlugin [] basicMsg).invoked
        = [("printer", "set_temperature", [Val.int 200])] ∧
      Val.str "abc123" ∈ (on_message_to_plugin testPlugin [] basicMsg).seen ∧
      on_message_to_plugin testPlugin (on_message_to_plugin testPlugin [] basicMsg).seen basicMsg
        = dropWith (on_message_to_plugin testPlugin [] basicMsg).seen Option.none ∧
      (on_message_to_plugin testPlugin [] basicMsg).wsSent.length ≤ 1 ∧
      (on_message_to_plugin testPlugin [] basicMsg).dcSent.length ≤ 1 :=
  C1_dedup_idempotent testPlugin [] basicMsg "printer" "set_temperature" printerTarget
    (fun _ => Val.int 1) (Or.inl rfl) rfl rfl rfl rfl (by decide) (by decide)

/-- Claim C2: the dedup ledger holds at most the 25 most-recently-inserted
distinct refs: after inserting 26 distinct refs in order into the empty
ledger (no duplicates in between), the ledger holds exactly 25 entries, the
first-inserted ref is no longer considered seen, and a subsequent envelope
reusing it passes the dedup check — the handler is invoked again and the
ref is recorded again. -/
theorem C2_ledger_bounded (rs : List Val) (r0 : Val)
    (hlen : rs.length = 26) (hnd : rs.Nodup) (hhead : rs.head? = some r0)
    (p : Plugin) (msg : Msg) (tname fname : String) (tgt : Target) (f : List Val → Val)
    (hid : truthy msg.printer_id = false ∨
      ∃ lid, p.linked_printer_id = some lid ∧ msg.printer_id = lid)
    (ht : msg.target = Val.str tname) (hT : p.targets tname = some tgt)
    (hf : msg.func = some fname) (hF : tgt.funcs fname = some f)
    (hr : msg.ref = r0) (hnn : r0 ≠ Val.none) :
    (List.foldl (dequeAppend 25) [] rs).length = 25 ∧
    r0 ∉ List.foldl (dequeAppend 25) [] rs ∧
    (on_message_to_plugin p (List.foldl (dequeAppend 25) [] rs) msg).invoked
      = [(tname, fname, msg.args)] ∧
    msg.ref ∈ (on_message_to_plugin p (List.foldl (dequeAppend 25) [] rs) msg).seen := by
  have hL : List.foldl (dequeAppend 25) [] rs = rs.tail := foldl_dequeAppend_26 rs hlen
  obtain ⟨a, t, rfl⟩ : ∃ a t, rs = a :: t := by
    cases rs with
    | nil => simp at hlen
    | cons a t => exact ⟨a, t, rfl⟩
  have ha : a = r0 := by simpa using hhead
  subst ha
  have hnotin : a ∉ t := (List.nodup_cons.mp hnd).1
  have htail : (a :: t).tail = t := rfl
  rw [hL, htail]
  have htl : t.length = 25 := by
    simp at hlen
    omega
  have hstep : on_message_to_plugin p t msg
      = runHandler p (dequeAppend 25 t msg.ref) msg tname fname f := by
    rw [identity_pass p t msg hid, resolve_eq p t msg tname fname tgt f ht hT hf hF]
    have hnt : msg.ref ∉ t := by rw [hr]; exact hnotin
    have hne : msg.ref ≠ Val.none := by rw [hr]; exact hnn
    simp [afterResolve, hne, hnt]
  have hseen : (on_message_to_plugin p t msg).seen = dequeAppend 25 t msg.ref := by
    rw [hstep]
    unfold runHandler
    by_cases hr' : truthy msg.ref <;> simp [hr']
  refine ⟨htl, hnotin, ?_, ?_⟩
  · rw [hstep]
    unfold runHandler
    by_cases hr' : truthy msg.ref <;> simp [hr']
  · rw [hseen]
    exact mem_dequeAppend_self 25 (by norm_num) t msg.ref

/-- Claim C2 witness: after the 26 concrete insertions the ledger holds 25
refs, ref 0 is evicted, and the envelope reusing ref 0 is processed and
re-recorded. -/
theorem C2_witness :
    (List.foldl (dequeAppend 25) [] refs26).length = 25 ∧
    Val.int 0 ∉ List.foldl (dequeAppend 25) [] refs26 ∧
    (on_message_to_plugin testPlugin (List.foldl (dequeAppend 25) [] refs26) replayMsg).invoked
      = [("printer", "set_temperature", [])] ∧
    replayMsg.ref ∈
      (on_message_to_plugin testPlugin (List.foldl (dequeAppend 25) [] refs26) replayMsg).seen :=
  C2_ledger_bounded refs26 (Val.int 0) (by decide) (by decide) (by decide)
    testPlugin replayMsg "printer" "set_temperature" printerTarget (fun _ => Val.int 1)
    (Or.inl rfl) rfl rfl rfl rfl rfl (by decide)
